import Mathlib

/-!
Shallow embedding of the arrival-skill reroll tool (Python sources under src/):
the text normalizer, string-similarity scorer and detection parser from
src/paddle_ocr_implementation.py, the stat catalog from src/stats_data.py, and
the reroll controller (start / stop / loop iteration / goal evaluator) from
src/automation.py.  Strings are modelled as lists of characters, Python floats
as rationals.
-/

namespace ArrivalSkill

/-- OCR text is modelled as a list of characters. -/
abbrev Text := List Char

/-!
The Batteries rational arithmetic operations are marked irreducible, which
stops kernel evaluation of concrete instances; the parser definitions below
therefore use the following wrappers, each proved equal to the corresponding
standard operation, so every theorem can be read and proved in ordinary
notation while witnesses still evaluate.
-/
/-- Kernel-evaluable rational subtraction; equals a - b by rsub_eq. -/
def rsub (a b : ℚ) : ℚ :=
  mkRat (a.num * (b.den : ℤ) - b.num * (a.den : ℤ)) (a.den * b.den)

/-- Kernel-evaluable rational addition; equals a + b by radd_eq. -/
def radd (a b : ℚ) : ℚ :=
  mkRat (a.num * (b.den : ℤ) + b.num * (a.den : ℤ)) (a.den * b.den)

/-- Kernel-evaluable rational multiplication; equals a * b by rmul_eq. -/
def rmul (a b : ℚ) : ℚ :=
  mkRat (a.num * b.num) (a.den * b.den)

/-- Kernel-evaluable quotient of two naturals; equals the cast quotient by
ndiv_eq. -/
def ndiv (m n : ℕ) : ℚ := mkRat m n

/-- src/paddle_ocr_implementation.py, normalize_text: lowercase, then remove
all space and period characters.  Char.toLower performs the ASCII lowering the
catalog and OCR strings use. -/
def normalize_text (text : Text) : Text :=
  (text.map Char.toLower).filter (fun c => !(c == ' ' || c == '.'))

/-- src/paddle_ocr_implementation.py, calculate_string_similarity: 0 on an
empty argument, 1 on equal arguments, otherwise the count of characters of
str1 occurring anywhere in str2 divided by the larger length, minus half the
relative length difference, clamped to the unit interval. -/
def calculate_string_similarity (str1 str2 : Text) : ℚ :=
  if str1 = [] ∨ str2 = [] then 0
  else if str1 = str2 then 1
  else
    let char_matches : ℕ := (str1.filter (fun c => str2.contains c)).length
    let max_length : ℕ := max str1.length str2.length
    let char_similarity : ℚ := ndiv char_matches max_length
    let length_diff : ℚ := ndiv ((str1.length : ℤ) - (str2.length : ℤ)).natAbs max_length
    let length_penalty : ℚ := rmul length_diff (ndiv 1 2)
    let similarity : ℚ := rsub char_similarity length_penalty
    max 0 (min similarity 1)

/-- The similarity contract as the spec words it (section 4.2): empty gives 0,
identical gives 1, otherwise clamp(char_similarity - length_penalty, 0, 1)
with char_similarity the containment count over the max length and
length_penalty half the absolute length difference over the max length. -/
def similarity_spec (a b : Text) : ℚ :=
  if a = [] ∨ b = [] then 0
  else if a = b then 1
  else
    let maxlen : ℚ := (max a.length b.length : ℕ)
    let char_similarity : ℚ := ((a.filter (fun c => b.contains c)).length : ℚ) / maxlen
    let length_penalty : ℚ := (1 / 2) * |(a.length : ℚ) - (b.length : ℚ)| / maxlen
    max 0 (min (char_similarity - length_penalty) 1)

/-- One OCR hit handed to the parser: bounding box (list of corner points),
recognized text, confidence (kept for fidelity, unused by the parser). -/
structure DetectedItem where
  box : List (ℚ × ℚ)
  text : Text
  confidence : ℚ
deriving DecidableEq

/-- src/paddle_ocr_implementation.py, get_y_center: the mean of the first and
third corner heights for a 4-point box, 0 for anything else (see
get_y_center_eq for the plain-notation reading). -/
def get_y_center (box : List (ℚ × ℚ)) : ℚ :=
  match box with
  | [p0, _, p2, _] => rmul (radd p0.2 p2.2) (ndiv 1 2)
  | _ => 0

/-- Longest run of leading decimal digits of a string. -/
def take_digits : Text → Text
  | [] => []
  | c :: cs => if c.isDigit then c :: take_digits cs else []

/-- First maximal run of decimal digits inside a string, none when the string
has no digit.  Both regular expressions of the source, the value pattern with
an optional plus sign and an optional percent or s suffix and the arrival
pattern with an optional s suffix, capture exactly this run as group 1, so a
single extractor embeds re.search for either pattern. -/
def first_digit_run : Text → Option Text
  | [] => none
  | c :: cs => if c.isDigit then some (c :: take_digits cs) else first_digit_run cs

/-- Decimal reading of a digit run, as Python int() applied to the captured
group. -/
def digits_to_nat (ds : Text) : ℕ :=
  ds.foldl (fun n c => 10 * n + (c.toNat - ('0').toNat)) 0

/-- re.search for the numeric patterns of the source: the integer value of the
first digit run, if any. -/
def search_int (t : Text) : Option ℕ :=
  (first_digit_run t).map digits_to_nat

/-- Does pat occur as a prefix of t. -/
def starts_with : Text → Text → Bool
  | _, [] => true
  | [], _ :: _ => false
  | c :: cs, p :: ps => c == p && starts_with cs ps

/-- Does pat occur as a contiguous substring of t, as the Python in operator
on strings. -/
def has_sub (t pat : Text) : Bool :=
  match t with
  | [] => pat.isEmpty
  | _ :: rest => starts_with t pat || has_sub rest pat

/-- The special case test of parse_detected_text: the lowercased raw text
contains arrival, cool and time as substrings. -/
def arrival_case (text : Text) : Bool :=
  let lower := text.map Char.toLower
  has_sub lower ("arrival".data) && has_sub lower ("cool".data) && has_sub lower ("time".data)

/-- Canonical name registered by the special case. -/
def ARRIVAL_NAME : Text := "Arrival Skill Cool Time decreased.".data

/-- src/stats_data.py, KNOWN_SKILLS. -/
def KNOWN_SKILLS_S : List String :=
  ["All Skill Amp.",
   "Ignore Resist Skill Amp.",
   "All Attack Up.",
   "Add. Damage",
   "HP Auto Heal",
   "Absorb Damage",
   "HP Absorb Up",
   "Max HP Steal per Hit",
   "Crit. DMG",
   "Ignore Resist Crit. DMG",
   "Defense",
   "DMG Reduction",
   "Arrival Skill Cooldown Reduce",
   "Ignore Resist Crit. Rate",
   "Ignore Evasion",
   "Attack Rate",
   "Resist Skill Amp.",
   "Heal",
   "Ignore Accuracy",
   "Defense Rate",
   "Arrival Skill Duration Increase",
   "Max Crit. Rate",
   "Accuracy",
   "Resist Crit. DMG",
   "Evasion",
   "Penetration",
   "Cancel Ignore Penetration",
   "Normal DMG Up",
   "Ignore Penetration",
   "Damage Absorb",
   "PvE Resist Skill Amp.",
   "PvE Resist Crit. DMG"]

/-- src/stats_data.py, get_all_skills: the catalog of stat names, as texts. -/
def get_all_skills : List Text := KNOWN_SKILLS_S.map String.data

/-- src/stats_data.py equivalents of OFFENSIVE_SKILLS. -/
def get_offensive_skills : List Text :=
  (["All Skill Amp.", "Ignore Resist Skill Amp.", "All Attack Up.", "Add. Damage",
    "Crit. DMG", "Ignore Resist Crit. DMG", "Ignore Resist Crit. Rate", "Ignore Evasion",
    "Attack Rate", "Resist Skill Amp.", "Ignore Accuracy", "Max Crit. Rate", "Accuracy",
    "Penetration", "Cancel Ignore Penetration", "Normal DMG Up",
    "Ignore Penetration"] : List String).map String.data

/-- src/stats_data.py equivalents of DEFENSIVE_SKILLS. -/
def get_defensive_skills : List Text :=
  (["HP Auto Heal", "Absorb Damage", "HP Absorb Up", "Max HP Steal per Hit", "Defense",
    "DMG Reduction", "Arrival Skill Cooldown Reduce", "Heal", "Defense Rate",
    "Arrival Skill Duration Increase", "Resist Crit. DMG", "Evasion", "Damage Absorb",
    "PvE Resist Skill Amp.", "PvE Resist Crit. DMG"] : List String).map String.data

/-- Modelled from the spec: get_base_stat_name is imported from stats_data by
the automation and parser modules but is absent from src/stats_data.py, which
only declares the catalog lists; per spec section 4.4 the display name and the
detection key are the same in this design, so the base form of a stat name is
the name itself. -/
def get_base_stat_name (s : Text) : Text := s

/-- The normalized-name to original-name table parse_detected_text builds from
the catalog (a dict comprehension in the source; the normalized keys are
pairwise distinct, so the association list in catalog order is the dict's
iteration order). -/
def normalized_stats : List (Text × Text) :=
  get_all_skills.map (fun stat => (normalize_text stat, stat))

/-- One step of the best-match scan: the running best is replaced only on a
strictly larger similarity. -/
def best_match_step (norm_text : Text) (acc : Option Text × ℚ) (entry : Text × Text) :
    Option Text × ℚ :=
  let similarity := calculate_string_similarity norm_text entry.1
  if acc.2 < similarity then (some entry.2, similarity) else acc

/-- The best-matching catalog entry for a normalized text, with its score,
starting from no match and score 0. -/
def find_best_match (norm_text : Text) : Option Text × ℚ :=
  normalized_stats.foldl (best_match_step norm_text) (none, 0)

/-- Python dict lookup on an association list. -/
def dict_get {α β : Type} [DecidableEq α] : List (α × β) → α → Option β
  | [], _ => none
  | (k, v) :: rest, key => if k = key then some v else dict_get rest key

/-- Python dict assignment on an association list: update in place when the
key is present, append otherwise. -/
def dict_insert {α β : Type} [DecidableEq α] : List (α × β) → α → β → List (α × β)
  | [], key, v => [(key, v)]
  | (k, w) :: rest, key, v =>
    if k = key then (k, v) :: rest else (k, w) :: dict_insert rest key v

/-- counter[key] = counter.get(key, 0) + 1. -/
def counter_incr {α : Type} [DecidableEq α] (c : List (α × ℕ)) (key : α) : List (α × ℕ) :=
  dict_insert c key ((dict_get c key).getD 0 + 1)

/-- Intermediate state of parse_detected_text while classifying items:
recognized stat labels with their y-centers, value candidates with their
y-centers, and the optional unmapped-text counter. -/
structure ParseState where
  stats_with_y : List (ℚ × Text × Text × ℚ)
  values_with_y : List (ℚ × Text × ℕ)
  unmapped : Option (List (Text × ℕ))
deriving DecidableEq

/-- Value detection and label matching for one item that did not take the
arrival branch: a text with an embedded integer becomes a value candidate,
otherwise the normalized text is scored against every catalog entry and kept
iff the best score reaches 0.6, a rejection only incrementing the unmapped
counter. -/
def classify_general (st : ParseState) (y : ℚ) (t : Text) : ParseState :=
  match search_int t with
  | some v => { st with values_with_y := st.values_with_y ++ [(y, t, v)] }
  | none =>
    let norm_text := normalize_text t
    let best := find_best_match norm_text
    match best.1 with
    | some b =>
      if ndiv 3 5 ≤ best.2 then
        { st with stats_with_y := st.stats_with_y ++ [(y, t, b, best.2)] }
      else
        { st with unmapped := st.unmapped.map (fun c => counter_incr c t) }
    | none => { st with unmapped := st.unmapped.map (fun c => counter_incr c t) }

/-- The per-item step of parse_detected_text: the arrival special case when
its substrings and an integer are present, the general path otherwise. -/
def classify_item (st : ParseState) (item : DetectedItem) : ParseState :=
  let y := get_y_center item.box
  let t := item.text
  if arrival_case t then
    match search_int t with
    | some v =>
      { st with
          stats_with_y := st.stats_with_y ++ [(y, t, ARRIVAL_NAME, 1)],
          values_with_y := st.values_with_y ++ [(y, t, v)] }
    | none => classify_general st y t
  else classify_general st y t

/-- One step of the nearest-value scan of parse_detected_text: the running
minimum is replaced only on a strictly smaller vertical distance. -/
def closest_step (stat_y : ℚ) (acc : Option (ℕ × ℚ)) (entry : ℚ × Text × ℕ) :
    Option (ℕ × ℚ) :=
  let distance := |rsub stat_y entry.1|
  match acc with
  | none => some (entry.2.2, distance)
  | some (_, min_distance) =>
    if distance < min_distance then some (entry.2.2, distance) else acc

/-- The value candidate nearest in y to a stat label, with its distance: a
strict-improvement scan, so the first candidate attaining the minimum wins. -/
def closest_value (values : List (ℚ × Text × ℕ)) (stat_y : ℚ) : Option (ℕ × ℚ) :=
  values.foldl (closest_step stat_y) none

/-- The pairing pass of parse_detected_text: each accepted label takes its
nearest value candidate when that one is strictly closer than 50, written into
the output dict. -/
def pair_stats (stats : List (ℚ × Text × Text × ℚ)) (values : List (ℚ × Text × ℕ)) :
    List (Text × ℕ) :=
  stats.foldl
    (fun found entry =>
      match closest_value values entry.1 with
      | some (v, min_distance) =>
        if min_distance < 50 then dict_insert found entry.2.2.1 v else found
      | none => found)
    []

/-- src/paddle_ocr_implementation.py, parse_detected_text: classify every
detected item, then pair accepted labels with nearby values; returns the
found-stats dict and the updated unmapped counter. -/
def parse_detected_text (detected_items : List DetectedItem)
    (unmapped_ocr_counter : Option (List (Text × ℕ))) :
    List (Text × ℕ) × Option (List (Text × ℕ)) :=
  let st := detected_items.foldl classify_item ⟨[], [], unmapped_ocr_counter⟩
  (pair_stats st.stats_with_y st.values_with_y, st.unmapped)

/-- User intent handed to start by the UI: up to one offensive and one
defensive triple of display name, minimum value and variation label
(src/ui.py builds the two lists with at most one element each; the automator
reads only element 0). -/
structure DesiredStats where
  offensive : List (Text × ℕ × Text)
  defensive : List (Text × ℕ × Text)
deriving DecidableEq

/-- src/automation.py, check_desired_stats: true when every specified slot
names a stat whose base form is in current_stats with at least the minimum
value; an unset slot counts as matched; both slots unset returns true
immediately. -/
def check_desired_stats (current_stats : List (Text × ℕ)) (desired_stats : DesiredStats) :
    Bool :=
  if desired_stats.offensive = [] ∧ desired_stats.defensive = [] then true
  else
    let off_match :=
      match desired_stats.offensive with
      | [] => true
      | (display_stat_name, min_value, _) :: _ =>
        match dict_get current_stats (get_base_stat_name display_stat_name) with
        | some v => decide (min_value ≤ v)
        | none => false
    let def_match :=
      match desired_stats.defensive with
      | [] => true
      | (display_stat_name, min_value, _) :: _ =>
        match dict_get current_stats (get_base_stat_name display_stat_name) with
        | some v => decide (min_value ≤ v)
        | none => false
    off_match && def_match

/-- The mutable fields of SkillRerollAutomator the claims are about: the
running flag, the two button coordinate pairs, the detailed-logging flag,
whether an OCR reader is held, the per-run stat counter (keyed by the
stat-name and value pair the source formats into one string) and the
unmapped-OCR counter. -/
structure AutomatorState where
  running : Bool
  apply_button_coords : Option (ℤ × ℤ)
  change_button_coords : Option (ℤ × ℤ)
  detailed_logging : Bool
  reader : Bool
  stat_counter : List ((Text × ℕ) × ℕ)
  unmapped_ocr_counter : List (Text × ℕ)
deriving DecidableEq

/-- The state built by SkillRerollAutomator.__init__. -/
def initState : AutomatorState :=
  { running := false, apply_button_coords := none, change_button_coords := none,
    detailed_logging := false, reader := false, stat_counter := [],
    unmapped_ocr_counter := [] }

/-- Environment outcomes start depends on: whether the window connection is
already established, whether connect_to_game would succeed, and whether
PaddleOCR construction succeeds. -/
structure StartEnv where
  connected : Bool
  connect_succeeds : Bool
  ocr_init_ok : Bool
deriving DecidableEq

/-- src/automation.py, start: reject missing coordinates, then an
unobtainable window connection, with the state untouched; then store the
coordinates and logging flag, reset the unmapped counter, and reinitialize
the OCR reader, entering the running state exactly when that succeeds. -/
def start (env : StartEnv) (s : AutomatorState)
    (apply_coords change_coords : Option (ℤ × ℤ))
    (desired_stats : DesiredStats) (detailed_logging : Bool) :
    Bool × AutomatorState :=
  if apply_coords = none ∨ change_coords = none then (false, s)
  else if env.connected = false ∧ env.connect_succeeds = false then (false, s)
  else
    let s1 := { s with
      apply_button_coords := apply_coords,
      change_button_coords := change_coords,
      detailed_logging := detailed_logging,
      unmapped_ocr_counter := [] }
    if env.ocr_init_ok then
      (true, { s1 with reader := true, running := true })
    else
      (false, { s1 with reader := false })

/-- src/automation.py, stop: clear the running flag and release the reader;
when the stat counter is non-empty, emit the summary and clear both per-run
counters. -/
def stop (s : AutomatorState) : AutomatorState :=
  let s1 := { s with running := false, reader := false }
  if s1.stat_counter ≠ [] then
    { s1 with stat_counter := [], unmapped_ocr_counter := [] }
  else s1

/-- stop prints the stats summary exactly when the stat counter is
non-empty. -/
def summary_emitted (s : AutomatorState) : Prop := s.stat_counter ≠ []

/-- One raw engine output line: box, text, confidence. -/
abbrev RawLine := List (ℚ × ℚ) × Text × ℚ

/-- src/paddle_ocr_implementation.py, PaddleOCRWrapper.readtext: an engine
exception is caught and yields the empty list; otherwise lines with
confidence above one half become detected items. -/
def readtext (ocr_result : Except Unit (List RawLine)) : List DetectedItem :=
  match ocr_result with
  | .error _ => []
  | .ok lines =>
    (lines.filter (fun l => ndiv 1 2 < l.2.2)).map
      (fun l => { box := l.1, text := l.2.1, confidence := l.2.2 })

/-- src/automation.py, detect_text_in_image: no reader or no detected text
gives an empty map; otherwise parse the detections, threading the unmapped
counter through the automator state. -/
def detect_text_in_image (s : AutomatorState) (ocr_result : Except Unit (List RawLine)) :
    List (Text × ℕ) × AutomatorState :=
  if s.reader = false then ([], s)
  else
    let results := readtext ocr_result
    if results = [] then ([], s)
    else
      let out := parse_detected_text results (some s.unmapped_ocr_counter)
      (out.1, { s with unmapped_ocr_counter := out.2.getD s.unmapped_ocr_counter })

/-- How one pass of the worker loop ends: retry after a failed capture,
reroll and continue, or stop on success. -/
inductive IterOutcome
  | retry_capture
  | reroll_continue
  | stop_success
deriving DecidableEq

/-- The per-roll accumulation of the loop: one increment of the stat counter
for every detected stat, at the key pairing the stat name with its value. -/
def record_stats (c : List ((Text × ℕ) × ℕ)) (found : List (Text × ℕ)) :
    List ((Text × ℕ) × ℕ) :=
  found.foldl (fun acc p => counter_incr acc p) c

/-- One pass of src/automation.py, reroll_loop: a failed capture retries with
nothing changed; otherwise text detection (empty when the reader is gone or
the engine raised), stat accumulation, and the goal check deciding between
stopping the run and rerolling. -/
def reroll_iteration (s : AutomatorState) (desired_stats : DesiredStats)
    (capture : Option (Except Unit (List RawLine))) : IterOutcome × AutomatorState :=
  match capture with
  | none => (IterOutcome.retry_capture, s)
  | some ocr_result =>
    let r := if s.reader then detect_text_in_image s ocr_result else ([], s)
    let s2 := { r.2 with stat_counter := record_stats r.2.stat_counter r.1 }
    if check_desired_stats r.1 desired_stats then
      (IterOutcome.stop_success, stop s2)
    else
      (IterOutcome.reroll_continue, s2)

/-- States the automator can reach: the initial state, a start transition
from a non-running state (the UI keeps the start button disabled while a run
is active, src/ui.py), a loop pass while running, and a stop call. -/
inductive Reachable : AutomatorState → Prop
  | init : Reachable initState
  | start_step {s : AutomatorState}
      (env : StartEnv) (apply_coords change_coords : Option (ℤ × ℤ))
      (desired_stats : DesiredStats) (detailed_logging : Bool) :
      Reachable s → s.running = false →
      Reachable (start env s apply_coords change_coords desired_stats detailed_logging).2
  | roll_step {s : AutomatorState}
      (desired_stats : DesiredStats) (capture : Option (Except Unit (List RawLine))) :
      Reachable s → s.running = true →
      Reachable (reroll_iteration s desired_stats capture).2
  | stop_step {s : AutomatorState} : Reachable s → Reachable (stop s)

/-- The goal contract of a single slot as the spec words it: an unset slot is
vacuously satisfied, a set slot requires its stat's base form to be present
in the current map with at least the minimum value. -/
def desired_slot_spec (current_stats : List (Text × ℕ)) : List (Text × ℕ × Text) → Prop
  | [] => True
  | (name, min_value, _) :: _ =>
    ∃ v, dict_get current_stats (get_base_stat_name name) = some v ∧ min_value ≤ v

theorem rsub_eq (a b : ℚ) : rsub a b = a - b := by
  unfold rsub
  rw [Rat.mkRat_eq_divInt, Rat.divInt_eq_div]
  have ha : ((a.den : ℚ)) ≠ 0 := by
    exact_mod_cast a.den_ne_zero
  have hb : ((b.den : ℚ)) ≠ 0 := by
    exact_mod_cast b.den_ne_zero
  conv_rhs => rw [← Rat.num_div_den a, ← Rat.num_div_den b]
  push_cast
  field_simp
  ring

theorem radd_eq (a b : ℚ) : radd a b = a + b := by
  unfold radd
  rw [Rat.mkRat_eq_divInt, Rat.divInt_eq_div]
  have ha : ((a.den : ℚ)) ≠ 0 := by
    exact_mod_cast a.den_ne_zero
  have hb : ((b.den : ℚ)) ≠ 0 := by
    exact_mod_cast b.den_ne_zero
  conv_rhs => rw [← Rat.num_div_den a, ← Rat.num_div_den b]
  push_cast
  field_simp

theorem rmul_eq (a b : ℚ) : rmul a b = a * b := by
  unfold rmul
  rw [Rat.mkRat_eq_divInt, Rat.divInt_eq_div]
  have ha : ((a.den : ℚ)) ≠ 0 := by
    exact_mod_cast a.den_ne_zero
  have hb : ((b.den : ℚ)) ≠ 0 := by
    exact_mod_cast b.den_ne_zero
  conv_rhs => rw [← Rat.num_div_den a, ← Rat.num_div_den b]
  push_cast
  field_simp

theorem ndiv_eq (m n : ℕ) : ndiv m n = (m : ℚ) / (n : ℚ) := by
  unfold ndiv
  rw [Rat.mkRat_eq_divInt, Rat.divInt_eq_div]
  push_cast
  rfl

theorem calculate_eq_spec (a b : Text) :
    calculate_string_similarity a b = similarity_spec a b := by
  unfold calculate_string_similarity similarity_spec
  by_cases h0 : a = [] ∨ b = []
  · simp [h0]
  · by_cases h1 : a = b
    · simp [h0, h1]
    · simp only [h0, h1, if_false, ite_false]
      rw [rsub_eq, rmul_eq, ndiv_eq, ndiv_eq, ndiv_eq]
      have habs : (((a.length : ℤ) - (b.length : ℤ)).natAbs : ℚ)
          = |(a.length : ℚ) - (b.length : ℚ)| := by
        rw [Int.cast_natAbs]
        push_cast
        ring_nf
      congr 1
      congr 1
      rw [habs]
      push_cast
      ring

theorem similarity_nonneg (a b : Text) : 0 ≤ calculate_string_similarity a b := by
  unfold calculate_string_similarity
  by_cases h0 : a = [] ∨ b = []
  · simp [h0]
  · push_neg at h0
    by_cases h1 : a = b
    · subst h1
      simp [h0.2]
    · have hne : ¬(a = [] ∨ b = []) := by
        intro hc
        rcases hc with hc | hc
        · exact h0.1 hc
        · exact h0.2 hc
      simp only [hne, h1, if_false, ite_false]
      exact le_max_left 0 _

theorem similarity_le_one (a b : Text) : calculate_string_similarity a b ≤ 1 := by
  unfold calculate_string_similarity
  by_cases h0 : a = [] ∨ b = []
  · simp [h0]
  · push_neg at h0
    by_cases h1 : a = b
    · subst h1
      simp [h0.2]
    · have hne : ¬(a = [] ∨ b = []) := by
        intro hc
        rcases hc with hc | hc
        · exact h0.1 hc
        · exact h0.2 hc
      simp only [hne, h1, if_false, ite_false]
      exact max_le (by norm_num) (min_le_right _ 1)

theorem similarity_self (a : Text) (h : a ≠ []) : calculate_string_similarity a a = 1 := by
  unfold calculate_string_similarity
  simp [h]

theorem similarity_empty_right (a : Text) : calculate_string_similarity a [] = 0 := by
  unfold calculate_string_similarity
  simp

theorem get_y_center_eq (p0 p1 p2 p3 : ℚ × ℚ) :
    get_y_center [p0, p1, p2, p3] = (p0.2 + p2.2) / 2 := by
  show rmul (radd p0.2 p2.2) (ndiv 1 2) = (p0.2 + p2.2) / 2
  rw [rmul_eq, radd_eq, ndiv_eq]
  push_cast
  ring

theorem best_match_step_pos (t : Text) (acc : Option Text × ℚ) (e : Text × Text)
    (h : acc.2 < calculate_string_similarity t e.1) :
    best_match_step t acc e = (some e.2, calculate_string_similarity t e.1) := by
  unfold best_match_step
  simp [h]

theorem best_match_step_neg (t : Text) (acc : Option Text × ℚ) (e : Text × Text)
    (h : ¬ acc.2 < calculate_string_similarity t e.1) :
    best_match_step t acc e = acc := by
  unfold best_match_step
  simp [h]

/-- The best-match scan either never improves on its accumulator, every
entry scoring no higher, or its result is the first entry of a maximal
score strictly above the accumulator: entries before it score strictly
lower, entries after it no higher. -/
theorem best_fold_characterization (t : Text) :
    ∀ (l : List (Text × Text)) (acc : Option Text × ℚ),
      (l.foldl (best_match_step t) acc = acc ∧
        ∀ e ∈ l, calculate_string_similarity t e.1 ≤ acc.2) ∨
      (∃ pre e post, l = pre ++ e :: post ∧
        l.foldl (best_match_step t) acc
          = (some e.2, calculate_string_similarity t e.1) ∧
        acc.2 < calculate_string_similarity t e.1 ∧
        (∀ p ∈ pre,
          calculate_string_similarity t p.1 < calculate_string_similarity t e.1) ∧
        (∀ p ∈ post,
          calculate_string_similarity t p.1 ≤ calculate_string_similarity t e.1)) := by
  intro l
  induction l with
  | nil =>
    intro acc
    left
    exact ⟨rfl, by simp⟩
  | cons x xs ih =>
    intro acc
    by_cases himp : acc.2 < calculate_string_similarity t x.1
    · have hstep := best_match_step_pos t acc x himp
      rcases ih (best_match_step t acc x) with ⟨heq, hall⟩ |
        ⟨pre, e, post, hsplit, hres, hgt, hpre, hpost⟩
      · right
        refine ⟨[], x, xs, rfl, ?_, himp, by simp, ?_⟩
        · rw [List.foldl_cons, heq, hstep]
        · intro p hp
          have := hall p hp
          rwa [hstep] at this
      · right
        refine ⟨x :: pre, e, post, by rw [hsplit]; rfl, ?_, ?_, ?_, hpost⟩
        · rw [List.foldl_cons]
          exact hres
        · have hgt2 : calculate_string_similarity t x.1 < calculate_string_similarity t e.1 := by
            rw [hstep] at hgt
            exact hgt
          exact lt_trans himp hgt2
        · intro p hp
          rcases List.mem_cons.mp hp with hpx | hpp
          · subst hpx
            rw [hstep] at hgt
            exact hgt
          · exact hpre p hpp
    · have hstep := best_match_step_neg t acc x himp
      rcases ih (best_match_step t acc x) with ⟨heq, hall⟩ |
        ⟨pre, e, post, hsplit, hres, hgt, hpre, hpost⟩
      · left
        constructor
        · rw [List.foldl_cons, heq, hstep]
        · intro p hp
          rcases List.mem_cons.mp hp with hpx | hpp
          · subst hpx
            exact le_of_not_lt himp
          · have := hall p hpp
            rwa [hstep] at this
      · right
        refine ⟨x :: pre, e, post, by rw [hsplit]; rfl, ?_, ?_, ?_, hpost⟩
        · rw [List.foldl_cons]
          exact hres
        · rw [hstep] at hgt
          exact hgt
        · intro p hp
          rcases List.mem_cons.mp hp with hpx | hpp
          · subst hpx
            rw [hstep] at hgt
            exact lt_of_le_of_lt (le_of_not_lt himp) hgt
          · exact hpre p hpp

/-- A successful best match is the first catalog entry attaining the
(strictly positive) maximal similarity: the matched name sits in the table,
scores exactly the reported similarity, every earlier entry scores strictly
less and every later entry no more. -/
theorem find_best_match_spec (t b : Text) (s : ℚ)
    (h : find_best_match t = (some b, s)) :
    ∃ pre nb post, normalized_stats = pre ++ (nb, b) :: post ∧
      calculate_string_similarity t nb = s ∧ 0 < s ∧
      (∀ p ∈ pre, calculate_string_similarity t p.1 < s) ∧
      (∀ p ∈ post, calculate_string_similarity t p.1 ≤ s) := by
  unfold find_best_match at h
  rcases best_fold_characterization t normalized_stats (none, 0) with ⟨heq, _⟩ |
    ⟨pre, e, post, hsplit, hres, hgt, hpre, hpost⟩
  · rw [heq] at h
    exact absurd (congrArg Prod.fst h) (by simp)
  · rw [hres] at h
    have h1 : e.2 = b := by
      have := congrArg Prod.fst h
      simpa using this
    have h2 : calculate_string_similarity t e.1 = s := by
      have := congrArg Prod.snd h
      simpa using this
    refine ⟨pre, e.1, post, ?_, h2, ?_, ?_, ?_⟩
    · rw [hsplit, ← h1]
    · rw [← h2]
      exact hgt
    · intro p hp
      rw [← h2]
      exact hpre p hp
    · intro p hp
      rw [← h2]
      exact hpost p hp

/-- A failed best match reports score 0 with every catalog entry scoring at
most 0. -/
theorem find_best_match_none (t : Text) (s : ℚ)
    (h : find_best_match t = (none, s)) :
    s = 0 ∧ ∀ p ∈ normalized_stats, calculate_string_similarity t p.1 ≤ 0 := by
  unfold find_best_match at h
  rcases best_fold_characterization t normalized_stats (none, 0) with ⟨heq, hall⟩ |
    ⟨pre, e, post, _, hres, _, _, _⟩
  · rw [heq] at h
    have hs : s = 0 := by
      have := congrArg Prod.snd h
      simpa using this.symm
    exact ⟨hs, hall⟩
  · rw [hres] at h
    exact absurd (congrArg Prod.fst h) (by simp)

theorem closest_step_some_lt (y : ℚ) (v0 : ℕ) (d0 : ℚ) (e : ℚ × Text × ℕ)
    (h : |rsub y e.1| < d0) :
    closest_step y (some (v0, d0)) e = some (e.2.2, |rsub y e.1|) := by
  unfold closest_step
  simp [h]

theorem closest_step_some_ge (y : ℚ) (v0 : ℕ) (d0 : ℚ) (e : ℚ × Text × ℕ)
    (h : ¬ |rsub y e.1| < d0) :
    closest_step y (some (v0, d0)) e = some (v0, d0) := by
  unfold closest_step
  simp [h]

/-- The nearest-value scan from a running minimum either keeps it, every
candidate being at least that far, or returns the first candidate of a
minimal distance strictly below it: candidates before it are strictly
farther, candidates after it no nearer. -/
theorem closest_fold_characterization (y : ℚ) :
    ∀ (l : List (ℚ × Text × ℕ)) (v0 : ℕ) (d0 : ℚ),
      (l.foldl (closest_step y) (some (v0, d0)) = some (v0, d0) ∧
        ∀ p ∈ l, d0 ≤ |rsub y p.1|) ∨
      (∃ pre e post, l = pre ++ e :: post ∧
        l.foldl (closest_step y) (some (v0, d0)) = some (e.2.2, |rsub y e.1|) ∧
        |rsub y e.1| < d0 ∧
        (∀ p ∈ pre, |rsub y e.1| < |rsub y p.1|) ∧
        (∀ p ∈ post, |rsub y e.1| ≤ |rsub y p.1|)) := by
  intro l
  induction l with
  | nil =>
    intro v0 d0
    left
    exact ⟨rfl, by simp⟩
  | cons x xs ih =>
    intro v0 d0
    by_cases himp : |rsub y x.1| < d0
    · have hstep := closest_step_some_lt y v0 d0 x himp
      rcases ih x.2.2 (|rsub y x.1|) with ⟨heq, hall⟩ |
        ⟨pre, e, post, hsplit, hres, hlt, hpre, hpost⟩
      · right
        refine ⟨[], x, xs, rfl, ?_, himp, by simp, hall⟩
        rw [List.foldl_cons, hstep, heq]
      · right
        refine ⟨x :: pre, e, post, by rw [hsplit]; rfl, ?_, ?_, ?_, hpost⟩
        · rw [List.foldl_cons, hstep]
          exact hres
        · exact lt_trans hlt himp
        · intro p hp
          rcases List.mem_cons.mp hp with hpx | hpp
          · subst hpx
            exact hlt
          · exact hpre p hpp
    · have hstep := closest_step_some_ge y v0 d0 x himp
      rcases ih v0 d0 with ⟨heq, hall⟩ |
        ⟨pre, e, post, hsplit, hres, hlt, hpre, hpost⟩
      · left
        constructor
        · rw [List.foldl_cons, hstep, heq]
        · intro p hp
          rcases List.mem_cons.mp hp with hpx | hpp
          · subst hpx
            exact le_of_not_lt himp
          · exact hall p hpp
      · right
        refine ⟨x :: pre, e, post, by rw [hsplit]; rfl, ?_, hlt, ?_, hpost⟩
        · rw [List.foldl_cons, hstep]
          exact hres
        · intro p hp
          rcases List.mem_cons.mp hp with hpx | hpp
          · subst hpx
            exact lt_of_lt_of_le hlt (le_of_not_lt himp)
          · exact hpre p hpp

/-- A successful nearest-value lookup returns the first candidate attaining
the minimal vertical distance: the reported value and distance come from one
entry of the list, earlier entries are strictly farther, later ones no
nearer, and no entry is nearer than the reported distance. -/
theorem closest_value_spec (values : List (ℚ × Text × ℕ)) (y : ℚ) (v : ℕ) (d : ℚ)
    (h : closest_value values y = some (v, d)) :
    ∃ pre e post, values = pre ++ e :: post ∧ v = e.2.2 ∧ d = |y - e.1| ∧
      (∀ p ∈ pre, d < |y - p.1|) ∧
      (∀ p ∈ post, d ≤ |y - p.1|) ∧
      (∀ p ∈ values, d ≤ |y - p.1|) := by
  simp only [← rsub_eq]
  cases values with
  | nil =>
    exact absurd h (by simp [closest_value])
  | cons x xs =>
    have hv : closest_value (x :: xs) y
        = xs.foldl (closest_step y) (some (x.2.2, |rsub y x.1|)) := by
      unfold closest_value
      rw [List.foldl_cons]
      rfl
    rw [hv] at h
    rcases closest_fold_characterization y xs x.2.2 (|rsub y x.1|) with ⟨heq, hall⟩ |
      ⟨pre, e, post, hsplit, hres, hlt, hpre, hpost⟩
    · rw [heq] at h
      have hv1 : v = x.2.2 := by
        have := congrArg (fun o => Option.map Prod.fst o) h
        simpa using this.symm
      have hd1 : d = |rsub y x.1| := by
        have := congrArg (fun o => Option.map Prod.snd o) h
        simpa using this.symm
      refine ⟨[], x, xs, rfl, hv1, hd1, by simp, ?_, ?_⟩
      · intro p hp
        rw [hd1]
        exact hall p hp
      · intro p hp
        rcases List.mem_cons.mp hp with hpx | hpp
        · subst hpx
          rw [hd1]
        · rw [hd1]
          exact hall p hpp
    · rw [hres] at h
      have hv1 : v = e.2.2 := by
        have := congrArg (fun o => Option.map Prod.fst o) h
        simpa using this.symm
      have hd1 : d = |rsub y e.1| := by
        have := congrArg (fun o => Option.map Prod.snd o) h
        simpa using this.symm
      refine ⟨x :: pre, e, post, by rw [hsplit]; rfl, hv1, hd1, ?_, ?_, ?_⟩
      · intro p hp
        rw [hd1]
        rcases List.mem_cons.mp hp with hpx | hpp
        · subst hpx
          exact hlt
        · exact hpre p hpp
      · intro p hp
        rw [hd1]
        exact hpost p hp
      · intro p hp
        rw [hd1]
        rw [hsplit] at hp
        rcases List.mem_cons.mp hp with hpx | hpp
        · subst hpx
          exact le_of_lt hlt
        · rcases List.mem_append.mp hpp with hpre2 | hpost2
          · exact le_of_lt (hpre p hpre2)
          · rcases List.mem_cons.mp hpost2 with hpe | hpp2
            · subst hpe
              exact le_refl _
            · exact hpost p hpp2

/-- The nearest-value lookup fails only on an empty candidate list. -/
theorem closest_value_none (values : List (ℚ × Text × ℕ)) (y : ℚ)
    (h : closest_value values y = none) : values = [] := by
  cases values with
  | nil => rfl
  | cons x xs =>
    have hv : closest_value (x :: xs) y
        = xs.foldl (closest_step y) (some (x.2.2, |rsub y x.1|)) := by
      unfold closest_value
      rw [List.foldl_cons]
      rfl
    rw [hv] at h
    rcases closest_fold_characterization y xs x.2.2 (|rsub y x.1|) with ⟨heq, _⟩ |
      ⟨_, _, _, _, hres, _, _, _⟩
    · rw [heq] at h
      exact absurd h (by simp)
    · rw [hres] at h
      exact absurd h (by simp)

theorem pair_stats_single_near (y : ℚ) (raw name : Text) (sv : ℚ)
    (values : List (ℚ × Text × ℕ)) (v : ℕ) (d : ℚ)
    (h : closest_value values y = some (v, d)) (hd : d < 50) :
    pair_stats [(y, raw, name, sv)] values = [(name, v)] := by
  unfold pair_stats
  rw [List.foldl_cons, List.foldl_nil]
  simp [h, hd]
  rfl

theorem pair_stats_single_far (y : ℚ) (raw name : Text) (sv : ℚ)
    (values : List (ℚ × Text × ℕ)) (v : ℕ) (d : ℚ)
    (h : closest_value values y = some (v, d)) (hd : ¬ d < 50) :
    pair_stats [(y, raw, name, sv)] values = [] := by
  unfold pair_stats
  rw [List.foldl_cons, List.foldl_nil]
  simp [h, hd]

/-- C2: calculate_string_similarity returns 0 when either string is empty, 1
when the strings are equal, and otherwise the clamp to the unit interval of
char-similarity minus length-penalty exactly as the spec states it
(similarity_spec); consequently the result always lies in the unit interval,
a non-empty string scores 1 against itself, and any string scores 0 against
the empty string. -/
theorem C2_similarity_contract :
    (∀ a b : Text, calculate_string_similarity a b = similarity_spec a b) ∧
    (∀ a b : Text,
      0 ≤ calculate_string_similarity a b ∧ calculate_string_similarity a b ≤ 1) ∧
    (∀ a : Text, a ≠ [] → calculate_string_similarity a a = 1) ∧
    (∀ a : Text, calculate_string_similarity a [] = 0) :=
  ⟨calculate_eq_spec,
   fun a b => ⟨similarity_nonneg a b, similarity_le_one a b⟩,
   similarity_self,
   similarity_empty_right⟩

/-- C2 witness: the contract applied to the concrete string ab, whose
self-similarity is 1 and whose similarity to the empty string is 0. -/
theorem C2_similarity_contract_witness :
    ("ab".data ≠ ([] : Text)) ∧
    calculate_string_similarity ("ab".data) ("ab".data) = 1 ∧
    calculate_string_similarity ("ab".data) [] = 0 :=
  ⟨by decide,
   C2_similarity_contract.2.2.1 ("ab".data) (by decide),
   C2_similarity_contract.2.2.2 ("ab".data)⟩

/-- C9: a similarity score of 1 does not characterize equality (the distinct
strings ab and ba score 1, as do aa and ab), and the function is asymmetric:
aa against ab scores 1 while ab against aa scores one half. -/
theorem C9_similarity_not_equality :
    calculate_string_similarity ("ab".data) ("ba".data) = 1 ∧
    ("ab".data ≠ "ba".data) ∧
    calculate_string_similarity ("aa".data) ("ab".data) = 1 ∧
    ("aa".data ≠ "ab".data) ∧
    calculate_string_similarity ("ab".data) ("aa".data) = ndiv 1 2 ∧
    calculate_string_similarity ("aa".data) ("ab".data)
      ≠ calculate_string_similarity ("ab".data) ("aa".data) := by
  refine ⟨by decide, by decide, by decide, by decide, by decide, by decide⟩

theorem classify_item_not_arrival (st : ParseState) (item : DetectedItem)
    (h : arrival_case item.text = false) :
    classify_item st item = classify_general st (get_y_center item.box) item.text := by
  unfold classify_item
  simp [h]

theorem classify_general_accept (st : ParseState) (y : ℚ) (t b : Text) (sv : ℚ)
    (hsearch : search_int t = none)
    (hbest : find_best_match (normalize_text t) = (some b, sv))
    (hge : ndiv 3 5 ≤ sv) :
    classify_general st y t =
      { st with stats_with_y := st.stats_with_y ++ [(y, t, b, sv)] } := by
  unfold classify_general
  rw [hsearch]
  simp only [hbest]
  rw [if_pos hge]

theorem classify_general_reject_some (st : ParseState) (y : ℚ) (t b : Text) (sv : ℚ)
    (hsearch : search_int t = none)
    (hbest : find_best_match (normalize_text t) = (some b, sv))
    (hlt : sv < ndiv 3 5) :
    classify_general st y t =
      { st with unmapped := st.unmapped.map (fun c => counter_incr c t) } := by
  unfold classify_general
  rw [hsearch]
  simp only [hbest]
  rw [if_neg (not_le.mpr hlt)]

theorem classify_general_reject_none (st : ParseState) (y : ℚ) (t : Text) (sv : ℚ)
    (hsearch : search_int t = none)
    (hbest : find_best_match (normalize_text t) = (none, sv)) :
    classify_general st y t =
      { st with unmapped := st.unmapped.map (fun c => counter_incr c t) } := by
  unfold classify_general
  rw [hsearch]
  simp only [hbest]

theorem classify_item_arrival (st : ParseState) (item : DetectedItem) (v : ℕ)
    (harr : arrival_case item.text = true)
    (hint : search_int item.text = some v) :
    classify_item st item =
      { st with
          stats_with_y :=
            st.stats_with_y ++ [(get_y_center item.box, item.text, ARRIVAL_NAME, 1)],
          values_with_y :=
            st.values_with_y ++ [(get_y_center item.box, item.text, v)] } := by
  unfold classify_item
  simp [harr, hint]

theorem stop_stat_counter_empty (s : AutomatorState) : (stop s).stat_counter = [] := by
  unfold stop
  by_cases h : s.stat_counter = []
  · simp [h]
  · simp [h]

theorem detect_running (s : AutomatorState) (ocr_result : Except Unit (List RawLine)) :
    (detect_text_in_image s ocr_result).2.running = s.running := by
  unfold detect_text_in_image
  by_cases h : s.reader = false
  · simp [h]
  · by_cases h2 : readtext ocr_result = []
    · simp [h, h2]
    · simp [h, h2]

theorem detect_stat_counter (s : AutomatorState) (ocr_result : Except Unit (List RawLine)) :
    (detect_text_in_image s ocr_result).2.stat_counter = s.stat_counter := by
  unfold detect_text_in_image
  by_cases h : s.reader = false
  · simp [h]
  · by_cases h2 : readtext ocr_result = []
    · simp [h, h2]
    · simp [h, h2]

/-- In every state the automator can reach while not running, the stat
counter is empty: initialization creates it empty, a failing start leaves it
alone, a loop pass ends non-running only through stop, and stop always
leaves it empty. -/
theorem reachable_idle_stat_empty :
    ∀ {s : AutomatorState}, Reachable s → s.running = false → s.stat_counter = [] := by
  intro s h
  induction h with
  | init =>
    intro _
    rfl
  | @start_step s env a c d dl hr hrun ih =>
    intro hrun2
    by_cases h1 : a = none ∨ c = none
    · simp only [start, h1, if_true, ite_true] at hrun2 ⊢
      exact ih hrun
    · by_cases h2 : env.connected = false ∧ env.connect_succeeds = false
      · simp only [start, h1, h2, if_false, ite_false, if_true, ite_true] at hrun2 ⊢
        exact ih hrun
      · by_cases h3 : env.ocr_init_ok = true
        · simp [start, h1, h2, h3] at hrun2
        · simp only [start, h1, h2, h3] at hrun2 ⊢
          simp at hrun2 ⊢
          exact ih hrun
  | @roll_step s d cap hr hrun ih =>
    intro hrun2
    match cap with
    | none =>
      exfalso
      simp only [reroll_iteration] at hrun2
      rw [hrun] at hrun2
      exact Bool.noConfusion hrun2
    | some ocr_result =>
      simp only [reroll_iteration] at hrun2 ⊢
      by_cases hchk :
          check_desired_stats
            (if s.reader = true then detect_text_in_image s ocr_result else ([], s)).1 d = true
      · rw [if_pos hchk] at hrun2 ⊢
        exact stop_stat_counter_empty _
      · exfalso
        rw [if_neg hchk] at hrun2
        have hrr : (if s.reader = true then detect_text_in_image s ocr_result
            else ([], s)).2.running = true := by
          by_cases hrd : s.reader = true
          · rw [if_pos hrd, detect_running]
            exact hrun
          · rw [if_neg hrd]
            exact hrun
        rw [hrr] at hrun2
        exact Bool.noConfusion hrun2
  | @stop_step s hr ih =>
    intro _
    exact stop_stat_counter_empty _

/-- C3: a detected item that triggers neither the arrival special case nor
value detection is normalized and scored against every catalog entry, the
running best replaced only on strict improvement so the first-seen entry wins
ties, and is appended as a matched label iff the best similarity is at least
0.6; a rejected text only increments the unmapped counter when one is
supplied, leaving the label and value lists, and hence the output map,
untouched. -/
theorem C3_label_matching :
    (∀ (st : ParseState) (item : DetectedItem) (b : Text) (sv : ℚ),
      arrival_case item.text = false →
      search_int item.text = none →
      find_best_match (normalize_text item.text) = (some b, sv) →
      ndiv 3 5 ≤ sv →
      classify_item st item =
        { st with stats_with_y :=
            st.stats_with_y ++ [(get_y_center item.box, item.text, b, sv)] }) ∧
    (∀ (st : ParseState) (item : DetectedItem) (b : Text) (sv : ℚ),
      arrival_case item.text = false →
      search_int item.text = none →
      find_best_match (normalize_text item.text) = (some b, sv) →
      sv < ndiv 3 5 →
      classify_item st item =
        { st with unmapped := st.unmapped.map (fun c => counter_incr c item.text) }) ∧
    (∀ (st : ParseState) (item : DetectedItem) (sv : ℚ),
      arrival_case item.text = false →
      search_int item.text = none →
      find_best_match (normalize_text item.text) = (none, sv) →
      classify_item st item =
        { st with unmapped := st.unmapped.map (fun c => counter_incr c item.text) }) ∧
    (∀ (t b : Text) (sv : ℚ),
      find_best_match t = (some b, sv) →
      ∃ pre nb post, normalized_stats = pre ++ (nb, b) :: post ∧
        calculate_string_similarity t nb = sv ∧ 0 < sv ∧
        (∀ p ∈ pre, calculate_string_similarity t p.1 < sv) ∧
        (∀ p ∈ post, calculate_string_similarity t p.1 ≤ sv)) ∧
    (∀ (item : DetectedItem) (c : List (Text × ℕ)) (sv : ℚ),
      arrival_case item.text = false →
      search_int item.text = none →
      (find_best_match (normalize_text item.text) = (none, sv) ∨
        (∃ b, find_best_match (normalize_text item.text) = (some b, sv)) ∧ sv < ndiv 3 5) →
      parse_detected_text [item] (some c) = ([], some (counter_incr c item.text))) := by
  refine ⟨?_, ?_, ?_, ?_, ?_⟩
  · intro st item b sv harr hsearch hbest hge
    rw [classify_item_not_arrival st item harr]
    exact classify_general_accept st _ _ b sv hsearch hbest hge
  · intro st item b sv harr hsearch hbest hlt
    rw [classify_item_not_arrival st item harr]
    exact classify_general_reject_some st _ _ b sv hsearch hbest hlt
  · intro st item sv harr hsearch hbest
    rw [classify_item_not_arrival st item harr]
    exact classify_general_reject_none st _ _ sv hsearch hbest
  · intro t b sv hbest
    exact find_best_match_spec t b sv hbest
  · intro item c sv harr hsearch hrej
    have hcl : classify_item { stats_with_y := [], values_with_y := [], unmapped := some c } item
        = { stats_with_y := [], values_with_y := [],
            unmapped := some (counter_incr c item.text) } := by
      rcases hrej with hnone | ⟨⟨b, hsome⟩, hlt⟩
      · rw [classify_item_not_arrival _ item harr]
        exact classify_general_reject_none _ _ _ sv hsearch hnone
      · rw [classify_item_not_arrival _ item harr]
        exact classify_general_reject_some _ _ _ b sv hsearch hsome hlt
    unfold parse_detected_text
    rw [List.foldl_cons, List.foldl_nil, hcl]
    rfl

set_option maxRecDepth 100000 in
/-- C3 witness: the item Heal is matched against the catalog entry Heal with
similarity 1 and appended as a label, while the item zzz is rejected and only
pushes its raw text into the supplied unmapped counter, the output map
staying empty. -/
theorem C3_label_matching_witness :
    classify_item { stats_with_y := [], values_with_y := [], unmapped := some [] }
        { box := [(0, 0), (1, 0), (1, 2), (0, 2)], text := "Heal".data, confidence := 1 }
      = { stats_with_y := [(get_y_center [(0, 0), (1, 0), (1, 2), (0, 2)],
            "Heal".data, "Heal".data, (1 : ℚ))],
          values_with_y := [], unmapped := some [] } ∧
    parse_detected_text
        [{ box := [(0, 0), (1, 0), (1, 2), (0, 2)], text := "zzz".data, confidence := 1 }]
        (some [])
      = ([], some [("zzz".data, 1)]) := by
  constructor
  · exact C3_label_matching.1
      { stats_with_y := [], values_with_y := [], unmapped := some [] }
      { box := [(0, 0), (1, 0), (1, 2), (0, 2)], text := "Heal".data, confidence := 1 }
      ("Heal".data) 1 (by decide) (by decide) (by decide) (by decide)
  · have h := C3_label_matching.2.2.2.2
      { box := [(0, 0), (1, 0), (1, 2), (0, 2)], text := "zzz".data, confidence := 1 }
      [] 0 (by decide) (by decide) (Or.inl (by decide))
    exact h.trans (by decide)

/-- C7 counterexample: when OCR initialization fails, start returns false
but has already overwritten automator state: called with new coordinates
(1, 2) and (3, 4) on a state still holding (5, 5) and (6, 6) and a non-empty
unmapped counter, the failing call returns a state whose coordinates and
counter differ from before the call. -/
theorem C7_start_failure_counterexample :
    (start { connected := true, connect_succeeds := true, ocr_init_ok := false }
        { running := false, apply_button_coords := some (5, 5),
          change_button_coords := some (6, 6), detailed_logging := false,
          reader := false, stat_counter := [],
          unmapped_ocr_counter := [("x".data, 1)] }
        (some (1, 2)) (some (3, 4)) { offensive := [], defensive := [] } false).1
      = false ∧
    (start { connected := true, connect_succeeds := true, ocr_init_ok := false }
        { running := false, apply_button_coords := some (5, 5),
          change_button_coords := some (6, 6), detailed_logging := false,
          reader := false, stat_counter := [],
          unmapped_ocr_counter := [("x".data, 1)] }
        (some (1, 2)) (some (3, 4)) { offensive := [], defensive := [] } false).2
      ≠ { running := false, apply_button_coords := some (5, 5),
          change_button_coords := some (6, 6), detailed_logging := false,
          reader := false, stat_counter := [],
          unmapped_ocr_counter := [("x".data, 1)] } := by
  refine ⟨by decide, by decide⟩

/-- C7 amended: every failing start returns false and the controller does
not enter the running state; the missing-coordinate and connection-failure
paths leave the state fully untouched, but on OCR-initialization failure the
coordinates, logging flag and unmapped counter have already been overwritten
and the reader cleared, only the running flag and stat counter surviving
unchanged. -/
theorem C7_start_failure_amended :
    (∀ (env : StartEnv) (s : AutomatorState) (c : Option (ℤ × ℤ))
       (d : DesiredStats) (dl : Bool),
      start env s none c d dl = (false, s)) ∧
    (∀ (env : StartEnv) (s : AutomatorState) (a : Option (ℤ × ℤ))
       (d : DesiredStats) (dl : Bool),
      start env s a none d dl = (false, s)) ∧
    (∀ (env : StartEnv) (s : AutomatorState) (a c : Option (ℤ × ℤ))
       (d : DesiredStats) (dl : Bool),
      env.connected = false → env.connect_succeeds = false →
      start env s a c d dl = (false, s)) ∧
    (∀ (env : StartEnv) (s : AutomatorState) (a c : Option (ℤ × ℤ))
       (d : DesiredStats) (dl : Bool),
      a ≠ none → c ≠ none →
      (env.connected = true ∨ env.connect_succeeds = true) →
      env.ocr_init_ok = false →
      start env s a c d dl =
        (false, { s with
          apply_button_coords := a, change_button_coords := c,
          detailed_logging := dl, unmapped_ocr_counter := [],
          reader := false })) ∧
    (∀ (env : StartEnv) (s : AutomatorState) (a c : Option (ℤ × ℤ))
       (d : DesiredStats) (dl : Bool),
      s.running = false → (start env s a c d dl).1 = false →
      (start env s a c d dl).2.running = false) := by
  refine ⟨?_, ?_, ?_, ?_, ?_⟩
  · intro env s c d dl
    simp [start]
  · intro env s a d dl
    simp [start]
  · intro env s a c d dl h1 h2
    by_cases hc : a = none ∨ c = none
    · simp [start, hc]
    · simp [start, hc, h1, h2]
  · intro env s a c d dl ha hc hcon hocr
    have hne : ¬(a = none ∨ c = none) := by
      intro hor
      rcases hor with hor | hor
      · exact ha hor
      · exact hc hor
    have hcon2 : ¬(env.connected = false ∧ env.connect_succeeds = false) := by
      intro hand
      rcases hcon with hcon | hcon
      · rw [hcon] at hand
        exact Bool.noConfusion hand.1
      · rw [hcon] at hand
        exact Bool.noConfusion hand.2
    simp [start, hne, hcon2, hocr]
  · intro env s a c d dl hrun hfail
    by_cases hc : a = none ∨ c = none
    · simp [start, hc]
      exact hrun
    · by_cases hcon : env.connected = false ∧ env.connect_succeeds = false
      · simp [start, hc, hcon]
        exact hrun
      · by_cases hocr : env.ocr_init_ok = true
        · exfalso
          simp [start, hc, hcon, hocr] at hfail
        · simp [start, hc, hcon, hocr]
          exact hrun

/-- C7 amended witness: the amended description applied to concrete failing
calls: a missing apply coordinate leaves the concrete initial state
untouched, and a concrete OCR-initialization failure yields the described
partially-updated state with the running flag still false. -/
theorem C7_start_failure_amended_witness :
    start { connected := true, connect_succeeds := true, ocr_init_ok := true }
        initState none (some (3, 4)) { offensive := [], defensive := [] } false
      = (false, initState) ∧
    start { connected := true, connect_succeeds := true, ocr_init_ok := false }
        initState (some (1, 2)) (some (3, 4)) { offensive := [], defensive := [] } false
      = (false, { initState with
          apply_button_coords := some (1, 2), change_button_coords := some (3, 4),
          detailed_logging := false, unmapped_ocr_counter := [], reader := false }) :=
  ⟨C7_start_failure_amended.1
      { connected := true, connect_succeeds := true, ocr_init_ok := true }
      initState (some (3, 4)) { offensive := [], defensive := [] } false,
   C7_start_failure_amended.2.2.2.1
      { connected := true, connect_succeeds := true, ocr_init_ok := false }
      initState (some (1, 2)) (some (3, 4)) { offensive := [], defensive := [] } false
      (by decide) (by decide) (Or.inl rfl) rfl⟩

/-- C8: after every successful start from a non-running state (the only
states the UI can start from) both per-run counters are empty when the
reroll loop begins; and at stop, whenever the summary is emitted (exactly
when the stat counter is non-empty) both counters are cleared after it. -/
theorem C8_counters_reset :
    (∀ (s : AutomatorState) (env : StartEnv) (a c : Option (ℤ × ℤ))
       (d : DesiredStats) (dl : Bool) (s' : AutomatorState),
      Reachable s → s.running = false →
      start env s a c d dl = (true, s') →
      s'.stat_counter = [] ∧ s'.unmapped_ocr_counter = []) ∧
    (∀ s : AutomatorState, summary_emitted s →
      (stop s).stat_counter = [] ∧ (stop s).unmapped_ocr_counter = []) := by
  constructor
  · intro s env a c d dl s' hreach hrun hstart
    have hstat : s.stat_counter = [] := reachable_idle_stat_empty hreach hrun
    by_cases hc : a = none ∨ c = none
    · simp [start, hc] at hstart
    · by_cases hcon : env.connected = false ∧ env.connect_succeeds = false
      · simp [start, hc, hcon] at hstart
      · by_cases hocr : env.ocr_init_ok = true
        · simp only [start, hc, hcon, hocr] at hstart
          simp at hstart
          rw [← hstart]
          exact ⟨hstat, rfl⟩
        · simp [start, hc, hcon, hocr] at hstart
  · intro s hsum
    unfold summary_emitted at hsum
    simp [stop, hsum]

/-- C8 witness: a concrete successful start from the initial state leaves
both counters empty, and stop on a state with a non-empty stat counter
clears both counters. -/
theorem C8_counters_reset_witness :
    ((start { connected := true, connect_succeeds := true, ocr_init_ok := true }
        initState (some (1, 2)) (some (3, 4)) { offensive := [], defensive := [] }
        false).2.stat_counter = [] ∧
     (start { connected := true, connect_succeeds := true, ocr_init_ok := true }
        initState (some (1, 2)) (some (3, 4)) { offensive := [], defensive := [] }
        false).2.unmapped_ocr_counter = []) ∧
    ((stop { running := true, apply_button_coords := none, change_button_coords := none,
             detailed_logging := false, reader := true,
             stat_counter := [(("Defense".data, 200), 2)],
             unmapped_ocr_counter := [("x".data, 1)] }).stat_counter = [] ∧
     (stop { running := true, apply_button_coords := none, change_button_coords := none,
             detailed_logging := false, reader := true,
             stat_counter := [(("Defense".data, 200), 2)],
             unmapped_ocr_counter := [("x".data, 1)] }).unmapped_ocr_counter = []) :=
  ⟨C8_counters_reset.1 initState
      { connected := true, connect_succeeds := true, ocr_init_ok := true }
      (some (1, 2)) (some (3, 4)) { offensive := [], defensive := [] } false
      (start { connected := true, connect_succeeds := true, ocr_init_ok := true }
        initState (some (1, 2)) (some (3, 4)) { offensive := [], defensive := [] }
        false).2
      Reachable.init rfl (by decide),
   C8_counters_reset.2 _ (by simp [summary_emitted])⟩

/-- C1: one pass of the worker loop always ends in one of retrying the
capture, continuing with a reroll, or stopping the run, whatever the
environment produced: a failed capture retries with the state untouched; an
engine exception is absorbed into an empty detection and the pass continues
or stops by the goal check alone, as does a pass with the reader gone; a
successful capture runs the total detection parser, defined on every item
list.  No other outcome exists. -/
theorem C1_loop_error_handling :
    (∀ (s : AutomatorState) (d : DesiredStats),
      reroll_iteration s d none = (IterOutcome.retry_capture, s)) ∧
    (∀ (s : AutomatorState) (d : DesiredStats) (e : Unit),
      reroll_iteration s d (some (Except.error e)) =
        if check_desired_stats [] d then (IterOutcome.stop_success, stop s)
        else (IterOutcome.reroll_continue, s)) ∧
    (∀ (s : AutomatorState) (d : DesiredStats) (lines : List RawLine),
      s.reader = false →
      reroll_iteration s d (some (Except.ok lines)) =
        if check_desired_stats [] d then (IterOutcome.stop_success, stop s)
        else (IterOutcome.reroll_continue, s)) ∧
    (∀ (s : AutomatorState) (d : DesiredStats) (cap : Option (Except Unit (List RawLine))),
      (reroll_iteration s d cap).1 = IterOutcome.retry_capture ↔ cap = none) ∧
    (∀ (s : AutomatorState) (d : DesiredStats) (lines : List RawLine),
      s.reader = true →
      reroll_iteration s d (some (Except.ok lines)) =
        (let r := detect_text_in_image s (Except.ok lines)
         let s2 := { r.2 with stat_counter := record_stats r.2.stat_counter r.1 }
         if check_desired_stats r.1 d then (IterOutcome.stop_success, stop s2)
         else (IterOutcome.reroll_continue, s2))) ∧
    (∀ (detected_items : List DetectedItem) (c : Option (List (Text × ℕ))),
      ∃ out, parse_detected_text detected_items c = out) := by
  refine ⟨?_, ?_, ?_, ?_, ?_, ?_⟩
  · intro s d
    rfl
  · intro s d e
    have hdet : (if s.reader = true then detect_text_in_image s (Except.error e)
        else ([], s)) = ([], s) := by
      by_cases h : s.reader = true
      · rw [if_pos h]
        unfold detect_text_in_image
        rw [h]
        simp [readtext]
      · rw [if_neg h]
    simp only [reroll_iteration, hdet]
    rfl
  · intro s d lines h
    have hdet : (if s.reader = true then detect_text_in_image s (Except.ok lines)
        else ([], s)) = ([], s) := by
      rw [if_neg]
      rw [h]
      exact Bool.noConfusion
    simp only [reroll_iteration, hdet]
    rfl
  · intro s d cap
    cases cap with
    | none => simp [reroll_iteration]
    | some ocr_result =>
      simp only [reroll_iteration]
      constructor
      · intro hretry
        exfalso
        by_cases hchk : check_desired_stats
            (if s.reader = true then detect_text_in_image s ocr_result else ([], s)).1 d = true
        · rw [if_pos hchk] at hretry
          exact IterOutcome.noConfusion hretry
        · rw [if_neg hchk] at hretry
          exact IterOutcome.noConfusion hretry
      · intro hnone
        exact Option.noConfusion hnone
  · intro s d lines h
    simp only [reroll_iteration, h, if_true, ite_true]
  · intro detected_items c
    exact ⟨parse_detected_text detected_items c, rfl⟩

/-- C1 witness: the characterization applied to concrete iterations: a
failed capture on the initial state retries leaving it unchanged, and an
engine exception with a set goal continues the run. -/
theorem C1_loop_error_handling_witness :
    reroll_iteration initState { offensive := [("Defense".data, 200, "200".data)], defensive := [] }
        none = (IterOutcome.retry_capture, initState) ∧
    reroll_iteration initState { offensive := [("Defense".data, 200, "200".data)], defensive := [] }
        (some (Except.error ())) = (IterOutcome.reroll_continue, initState) ∧
    initState.reader = false ∧
    reroll_iteration initState { offensive := [("Defense".data, 200, "200".data)], defensive := [] }
        (some (Except.ok [])) = (IterOutcome.reroll_continue, initState) := by
  refine ⟨?_, ?_, rfl, ?_⟩
  · exact C1_loop_error_handling.1 initState
      { offensive := [("Defense".data, 200, "200".data)], defensive := [] }
  · have h := C1_loop_error_handling.2.1 initState
      { offensive := [("Defense".data, 200, "200".data)], defensive := [] } ()
    rw [h]
    decide
  · have h := C1_loop_error_handling.2.2.1 initState
      { offensive := [("Defense".data, 200, "200".data)], defensive := [] } [] rfl
    rw [h]
    decide

/-- C4: each accepted label is paired with the value candidate minimizing
the absolute vertical distance to it, the entry being written only when that
minimum is strictly below 50; a label whose nearest candidate is 50 or more
away contributes no entry, and a capture with zero items yields an empty
map. -/
theorem C4_value_pairing :
    (∀ (y : ℚ) (raw name : Text) (sv : ℚ) (values : List (ℚ × Text × ℕ)) (v : ℕ) (d : ℚ),
      closest_value values y = some (v, d) → d < 50 →
      pair_stats [(y, raw, name, sv)] values = [(name, v)]) ∧
    (∀ (y : ℚ) (raw name : Text) (sv : ℚ) (values : List (ℚ × Text × ℕ)) (v : ℕ) (d : ℚ),
      closest_value values y = some (v, d) → 50 ≤ d →
      pair_stats [(y, raw, name, sv)] values = []) ∧
    (∀ (values : List (ℚ × Text × ℕ)) (y : ℚ) (v : ℕ) (d : ℚ),
      closest_value values y = some (v, d) →
      ∃ pre e post, values = pre ++ e :: post ∧ v = e.2.2 ∧ d = |y - e.1| ∧
        (∀ p ∈ values, d ≤ |y - p.1|)) ∧
    (∀ c, parse_detected_text [] c = ([], c)) := by
  refine ⟨?_, ?_, ?_, ?_⟩
  · intro y raw name sv values v d h hd
    exact pair_stats_single_near y raw name sv values v d h hd
  · intro y raw name sv values v d h hd
    exact pair_stats_single_far y raw name sv values v d h (not_lt.mpr hd)
  · intro values y v d h
    obtain ⟨pre, e, post, h1, h2, h3, _, _, hall⟩ := closest_value_spec values y v d h
    exact ⟨pre, e, post, h1, h2, h3, hall⟩
  · intro c
    rfl

/-- C4 witness: with a single value candidate at height 5, a label at height
1 (distance 4) receives its value while a label at height 100 (distance 95)
yields no entry; the empty capture parses to the empty map. -/
theorem C4_value_pairing_witness :
    pair_stats [((1 : ℚ), "lbl".data, "Defense".data, 1)] [((5 : ℚ), "7".data, 7)]
      = [("Defense".data, 7)] ∧
    pair_stats [((100 : ℚ), "lbl".data, "Defense".data, 1)] [((5 : ℚ), "7".data, 7)]
      = [] ∧
    parse_detected_text [] (some []) = ([], some []) :=
  ⟨C4_value_pairing.1 1 ("lbl".data) ("Defense".data) 1 [((5 : ℚ), "7".data, 7)] 7 4
      (by decide) (by decide),
   C4_value_pairing.2.1 100 ("lbl".data) ("Defense".data) 1 [((5 : ℚ), "7".data, 7)] 7 95
      (by decide) (by decide),
   C4_value_pairing.2.2.2 (some [])⟩

set_option maxRecDepth 400000 in
/-- C5: a detected item whose raw text contains arrival, cool and time
(case-insensitive) and holds an integer registers the canonical arrival stat
with similarity 1 together with that integer as a value candidate at the same
height; in particular the single item Arrival skill Cool time decreased 30s
parses to the map sending the canonical arrival name to 30 with no separate
value token. -/
theorem C5_arrival_special_case :
    (∀ (st : ParseState) (item : DetectedItem) (v : ℕ),
      arrival_case item.text = true →
      search_int item.text = some v →
      classify_item st item =
        { st with
            stats_with_y :=
              st.stats_with_y ++ [(get_y_center item.box, item.text, ARRIVAL_NAME, 1)],
            values_with_y :=
              st.values_with_y ++ [(get_y_center item.box, item.text, v)] }) ∧
    parse_detected_text
        [{ box := [(0, 10), (5, 10), (5, 20), (0, 20)],
           text := "Arrival skill Cool time decreased 30s".data, confidence := 1 }] none
      = ([(ARRIVAL_NAME, 30)], none) := by
  constructor
  · intro st item v harr hint
    exact classify_item_arrival st item v harr hint
  · decide

set_option maxRecDepth 400000 in
/-- C5 witness: the arrival branch applied to the concrete fused item, which
is appended both as a perfect-similarity stat and as the value 30 at the same
height. -/
theorem C5_arrival_special_case_witness :
    classify_item { stats_with_y := [], values_with_y := [], unmapped := none }
        { box := [(0, 10), (5, 10), (5, 20), (0, 20)],
          text := "Arrival skill Cool time decreased 30s".data, confidence := 1 }
      = { stats_with_y := [(get_y_center [(0, 10), (5, 10), (5, 20), (0, 20)],
            "Arrival skill Cool time decreased 30s".data, ARRIVAL_NAME, (1 : ℚ))],
          values_with_y := [(get_y_center [(0, 10), (5, 10), (5, 20), (0, 20)],
            "Arrival skill Cool time decreased 30s".data, 30)],
          unmapped := none } :=
  C5_arrival_special_case.1
    { stats_with_y := [], values_with_y := [], unmapped := none }
    { box := [(0, 10), (5, 10), (5, 20), (0, 20)],
      text := "Arrival skill Cool time decreased 30s".data, confidence := 1 }
    30 (by decide) (by decide)

set_option maxRecDepth 400000 in
/-- C10: value candidates are never consumed by pairing: a single value
detection at height 105 supplies the value for both the label Defense at
height 100 and the distinct label Evasion at height 110. -/
theorem C10_values_not_consumed :
    parse_detected_text
        [{ box := [(0, 95), (10, 95), (10, 105), (0, 105)],
           text := "Defense".data, confidence := 1 },
         { box := [(0, 105), (10, 105), (10, 115), (0, 115)],
           text := "Evasion".data, confidence := 1 },
         { box := [(0, 100), (10, 100), (10, 110), (0, 110)],
           text := "105".data, confidence := 1 }] none
      = ([("Defense".data, 105), ("Evasion".data, 105)], none) ∧
    ("Defense".data ≠ "Evasion".data) := by
  refine ⟨by decide, by decide⟩

/-- C6: check_desired_stats is true exactly when every set slot names a stat
whose base form is present in the current map with at least the slot's
minimum value, unset slots being vacuously satisfied; in particular a fully
unset goal accepts every current map. -/
theorem C6_goal_evaluator :
    (∀ (current_stats : List (Text × ℕ)) (desired_stats : DesiredStats),
      check_desired_stats current_stats desired_stats = true ↔
        desired_slot_spec current_stats desired_stats.offensive ∧
        desired_slot_spec current_stats desired_stats.defensive) ∧
    (∀ current_stats : List (Text × ℕ),
      check_desired_stats current_stats { offensive := [], defensive := [] } = true) := by
  constructor
  · intro cur d
    obtain ⟨off, de⟩ := d
    cases off with
    | nil =>
      cases de with
      | nil =>
        simp [check_desired_stats, desired_slot_spec]
      | cons hd tl =>
        obtain ⟨n, mv, var⟩ := hd
        cases hlk : dict_get cur (get_base_stat_name n) with
        | none => simp [check_desired_stats, desired_slot_spec, hlk]
        | some v => simp [check_desired_stats, desired_slot_spec, hlk]
    | cons hd tl =>
      obtain ⟨n, mv, var⟩ := hd
      cases de with
      | nil =>
        cases hlk : dict_get cur (get_base_stat_name n) with
        | none => simp [check_desired_stats, desired_slot_spec, hlk]
        | some v => simp [check_desired_stats, desired_slot_spec, hlk]
      | cons hd2 tl2 =>
        obtain ⟨n2, mv2, var2⟩ := hd2
        cases hlk : dict_get cur (get_base_stat_name n) with
        | none =>
          cases hlk2 : dict_get cur (get_base_stat_name n2) with
          | none => simp [check_desired_stats, desired_slot_spec, hlk, hlk2]
          | some v2 => simp [check_desired_stats, desired_slot_spec, hlk, hlk2]
        | some v =>
          cases hlk2 : dict_get cur (get_base_stat_name n2) with
          | none => simp [check_desired_stats, desired_slot_spec, hlk, hlk2]
          | some v2 => simp [check_desired_stats, desired_slot_spec, hlk, hlk2]
  · intro cur
    simp [check_desired_stats]

/-- C6 witness: the goal Defense at least 200 applied to a current map
holding Defense exactly 200 succeeds through the characterization, and the
unset goal accepts the empty map. -/
theorem C6_goal_evaluator_witness :
    check_desired_stats [("Defense".data, 200)]
      { offensive := [("Defense".data, 200, "200".data)], defensive := [] } = true ∧
    check_desired_stats [] { offensive := [], defensive := [] } = true :=
  ⟨(C6_goal_evaluator.1 [("Defense".data, 200)]
      { offensive := [("Defense".data, 200, "200".data)], defensive := [] }).mpr
    ⟨⟨200, by decide, by decide⟩, trivial⟩,
   C6_goal_evaluator.2 []⟩

end ArrivalSkill
